import Mathlib

/-!
Shallow embedding of the reconciliation core of the kfp-api charm
(src/charms/kfp-api/src/charm.py, class KfpApiOperator).

Relations hold string-keyed, string-valued data bags produced by peers;
they are modelled as association lists. Python exceptions are modelled by
an explicit error type carried in Except: ErrorWithStatus carries a
status, GenericCharmRuntimeError is the status-free runtime error, and the
two library exceptions that escape the charm's own handlers
(TooManyRelatedAppsError from model.get_relation, ValueError from tuple
unpacking of str.split) get their own constructors, since no handler in
charm.py catches them.
-/

deriving instance DecidableEq for Except

/-- Unit status values (ops.model): Active, Waiting, Blocked, Maintenance,
each failure status carrying its message. -/
inductive Status where
  | active : Status
  | waiting : String → Status
  | blocked : String → Status
  | maintenance : String → Status
deriving DecidableEq

/-- Exceptions raised inside the charm code. withStatus is ErrorWithStatus
(message folded into the Status), genericRuntime is GenericCharmRuntimeError;
tooManyRelatedApps and valueError are library errors no charm handler
catches. -/
inductive CharmError where
  | withStatus : Status → CharmError
  | genericRuntime : String → CharmError
  | tooManyRelatedApps : CharmError
  | valueError : CharmError
deriving DecidableEq

/-- One data bag exchanged over a relation: string keys to string values. -/
abbrev UnitData := List (String × String)

/-- The database connection parameters assembled by the resolution paths
(the db_data dict of _get_mysql_data and _get_relational_db_data). -/
structure DbData where
  db_name : String
  db_password : String
  db_username : String
  db_host : String
  db_port : String
deriving DecidableEq

/-- Fixed warning banner MYSQL_WARNING from charm.py. -/
def MYSQL_WARNING : String := "Relation mysql is deprecated."

/-- Fixed conflict message UNBLOCK_MESSAGE from charm.py. -/
def UNBLOCK_MESSAGE : String := "Remove deprecated mysql relation to unblock."

/-- Database-relation topology visible to the charm: the list of
established mysql relations (each a list of remote units, each unit a data
bag, in iteration order), and the relational-db relation, present or not;
when present it carries the records returned by
DatabaseRequires.fetch_relation_data (its values, in iteration order). -/
structure DBState where
  mysqlRels : List (List UnitData)
  relationalDb : Option (List UnitData)
deriving DecidableEq

/-- model.get_relation("mysql") as used through _get_db_relation: no
relation raises GenericCharmRuntimeError (after the None check), exactly
one returns it, several raise TooManyRelatedAppsError, which
_get_db_relation only shields against KeyError, not against this. -/
def getDbRelationMysql (s : DBState) : Except CharmError (List UnitData) :=
  match s.mysqlRels with
  | [] => .error (.genericRuntime "Database relation mysql is not established or empty")
  | [r] => .ok r
  | _ => .error .tooManyRelatedApps

/-- _get_mysql_data: take the first remote unit's bag; read keys database,
root_password, host, port in that order; username is the constant "root".
A missing unit or key with a still-empty bag raises
GenericCharmRuntimeError (falsy relation_data); a missing key with a
non-empty bag raises ErrorWithStatus(..., Waiting). -/
def getMysqlData (s : DBState) : Except CharmError DbData :=
  match getDbRelationMysql s with
  | .error e => .error e
  | .ok units =>
    match units with
    | [] => .error (.genericRuntime "Database relation mysql is not established or empty")
    | u :: _ =>
      match u.lookup "database", u.lookup "root_password", u.lookup "host", u.lookup "port" with
      | some db, some pw, some h, some p =>
          .ok ⟨db, pw, "root", h, p⟩
      | _, _, _, _ =>
          if u.isEmpty then
            .error (.genericRuntime "Database relation mysql is not established or empty")
          else
            .error (.withStatus (.waiting "Incorrect/incomplete data found in relation mysql. See logs"))

/-- Helper for pySplit: split a character list on every occurrence of a
separator, keeping empty groups, as Python str.split with an explicit
separator does. -/
def splitChars (sep : Char) : List Char → List (List Char)
  | [] => [[]]
  | c :: cs =>
    if c = sep then [] :: splitChars sep cs
    else
      match splitChars sep cs with
      | [] => [[c]]
      | g :: gs => (c :: g) :: gs

/-- Python str.split(sep) for a one-character separator: every occurrence
splits, empty parts are kept, the empty string yields one empty part. -/
def pySplit (s : String) (sep : Char) : List String :=
  (splitChars sep s.data).map String.mk

/-- The loop body of _get_relational_db_data over fetch_relation_data
values: empty bags are skipped; keys password, username, endpoints are
read in that order (KeyError becomes ErrorWithStatus Waiting); endpoints
is unpacked as host, port from str.split on a colon, which raises
ValueError unless the split has exactly two parts; a later record
overwrites an earlier one. -/
def parseDbVals : List UnitData → Option DbData → Except CharmError (Option DbData)
  | [], acc => .ok acc
  | v :: rest, acc =>
    if v.isEmpty then parseDbVals rest acc
    else
      match v.lookup "password" with
      | none => .error (.withStatus (.waiting "Incorrect/incomplete data found in relation relational-db. See logs"))
      | some pw =>
        match v.lookup "username" with
        | none => .error (.withStatus (.waiting "Incorrect/incomplete data found in relation relational-db. See logs"))
        | some user =>
          match v.lookup "endpoints" with
          | none => .error (.withStatus (.waiting "Incorrect/incomplete data found in relation relational-db. See logs"))
          | some ep =>
            match pySplit ep ':' with
            | [h, p] => parseDbVals rest (some ⟨"mlpipeline", pw, user, h, p⟩)
            | _ => .error .valueError

/-- _get_relational_db_data: require the relational-db relation to be
established (else GenericCharmRuntimeError), parse the library records,
and raise ErrorWithStatus Waiting when no record populated db_data. -/
def getRelationalDbData (s : DBState) : Except CharmError DbData :=
  match s.relationalDb with
  | none => .error (.genericRuntime "Database relation relational-db is not established or empty")
  | some vals =>
    match parseDbVals vals none with
    | .error e => .error e
    | .ok none => .error (.withStatus (.waiting "Waiting for relational-db data"))
    | .ok (some d) => .ok d

/-- _get_db_data: try mysql first; re-raise its ErrorWithStatus; on its
GenericCharmRuntimeError try relational-db, re-raising its ErrorWithStatus;
when that too raises GenericCharmRuntimeError, raise Blocked asking for a
database relation. Any other exception propagates. -/
def getDbData (s : DBState) : Except CharmError DbData :=
  match getMysqlData s with
  | .ok d => .ok d
  | .error (.genericRuntime _) =>
    match getRelationalDbData s with
    | .ok d => .ok d
    | .error (.genericRuntime _) =>
      .error (.withStatus (.blocked "Please add required database relation: eg. relational-db"))
    | .error e => .error e
  | .error e => .error e

/-- Outcome of one SDI interface as seen by _validate_sdi_interface:
either the object is not a SerializedDataInterface, or get_data raises a
jsonschema ValidationError, or it returns the unpacked records (the
values of the relation-data mapping, in iteration order). -/
inductive SDIResult where
  | notSDI : SDIResult
  | invalid : SDIResult
  | data : List UnitData → SDIResult
deriving DecidableEq

/-- The mapping returned by get_interfaces: relation name to interface
object or None; a name absent from the list is absent from the mapping. -/
abbrev Interfaces := List (String × Option SDIResult)

/-- _validate_sdi_interface: absent or None interface returns the default
or raises Blocked; a non-SDI object raises Blocked; schema failure raises
Blocked; zero records raises Waiting; an empty first record raises
Blocked; otherwise the first record is returned. -/
def validateSdiInterface (interfaces : Interfaces) (relationName : String)
    (defaultReturn : Option UnitData) : Except CharmError UnitData :=
  match interfaces.lookup relationName with
  | none =>
    match defaultReturn with
    | some d => .ok d
    | none => .error (.withStatus (.blocked ("Please add required relation " ++ relationName)))
  | some none =>
    match defaultReturn with
    | some d => .ok d
    | none => .error (.withStatus (.blocked ("Please add required relation " ++ relationName)))
  | some (some .notSDI) =>
    .error (.withStatus (.blocked ("Unexpected error with " ++ relationName ++ " relation data - data not as expected")))
  | some (some .invalid) =>
    .error (.withStatus (.blocked ("Found incomplete/incorrect relation data for " ++ relationName ++ ". See logs")))
  | some (some (.data records)) =>
    match records with
    | [] => .error (.withStatus (.waiting ("Waiting for " ++ relationName ++ " relation data")))
    | d :: _ =>
      if d.isEmpty then
        .error (.withStatus (.blocked ("Found empty relation data for " ++ relationName)))
      else .ok d

/-- _get_object_storage. -/
def getObjectStorage (interfaces : Interfaces) : Except CharmError UnitData :=
  validateSdiInterface interfaces "object-storage" none

/-- _get_viz. -/
def getViz (interfaces : Interfaces) : Except CharmError UnitData :=
  validateSdiInterface interfaces "kfp-viz" none

/-- _check_leader: raises ErrorWithStatus Waiting when the unit is not
the leader. -/
def checkLeader (isLeader : Bool) : Except CharmError Unit :=
  if isLeader then .ok () else .error (.withStatus (.waiting "Waiting for leadership"))

/-- _check_container_connection: raises ErrorWithStatus with
MaintenanceStatus when the container cannot be reached. -/
def checkContainerConnection (canConnect : Bool) : Except CharmError Unit :=
  if canConnect then .ok ()
  else .error (.withStatus (.maintenance "Pod startup is not complete"))

/-- _generate_config restricted to its fallible inputs: database data,
object-storage data, viz data, fetched in that order; any ErrorWithStatus
is re-raised unchanged, the rest of the function is pure construction. -/
def generateConfig (interfaces : Interfaces) (db : DBState) :
    Except CharmError (DbData × UnitData × UnitData) :=
  match getDbData db with
  | .error e => .error e
  | .ok d =>
    match getObjectStorage interfaces with
    | .error e => .error e
    | .ok os =>
      match getViz interfaces with
      | .error e => .error e
      | .ok viz => .ok (d, os, viz)

/-- The environment one reconciliation pass runs in: leadership, the
outcome of get_interfaces, the database topology, container
reachability, and the outcomes of the two cluster-side steps
(_apply_k8s_resources and update_layer). -/
structure ReconcileEnv where
  isLeader : Bool
  interfacesResult : Except CharmError Interfaces
  dbState : DBState
  containerCanConnect : Bool
  applyK8sResult : Except CharmError Unit
  updateLayerResult : Except CharmError Unit

/-- The pipeline body of _on_event: leadership, interfaces, config
generation, container connection check inside _upload_files_to_container,
K8S resource apply, layer update; _send_info is best-effort and cannot
fail with a status. Short-circuits on the first error. -/
def runPipeline (env : ReconcileEnv) : Except CharmError Unit :=
  match checkLeader env.isLeader with
  | .error e => .error e
  | .ok _ =>
    match env.interfacesResult with
    | .error e => .error e
    | .ok interfaces =>
      match generateConfig interfaces env.dbState with
      | .error e => .error e
      | .ok _ =>
        match checkContainerConnection env.containerCanConnect with
        | .error e => .error e
        | .ok _ =>
          match env.applyK8sResult with
          | .error e => .error e
          | .ok _ => env.updateLayerResult

/-- What a trigger handler leaves behind: a unit status that was set, or
an exception that escaped every handler (the unit status is then not
updated by the handler). -/
inductive EventOutcome where
  | status : Status → EventOutcome
  | uncaught : CharmError → EventOutcome
deriving DecidableEq

/-- _on_event: run the pipeline; an ErrorWithStatus is caught and its
status copied to the unit; success sets Active; any other exception
escapes. -/
def onEvent (env : ReconcileEnv) : EventOutcome :=
  match runPipeline env with
  | .ok _ => .status .active
  | .error (.withStatus st) => .status st
  | .error e => .uncaught e

/-- Possible results of container.get_check("kfp-api-up"): the check is
up, the check is down, or the model API errs (ModelError). -/
inductive CheckOutcome where
  | up : CheckOutcome
  | down : CheckOutcome
  | modelError : CheckOutcome
deriving DecidableEq

/-- _check_status: leader check, then the pebble check; a ModelError is
wrapped into GenericCharmRuntimeError (status-free), a DOWN check raises
ErrorWithStatus with MaintenanceStatus, an UP check sets Active. -/
def checkStatus (isLeader : Bool) (check : CheckOutcome) : Except CharmError Unit :=
  match checkLeader isLeader with
  | .error e => .error e
  | .ok _ =>
    match check with
    | .modelError => .error (.genericRuntime "Failed to run health check on workload container")
    | .down => .error (.withStatus (.maintenance "Workload failed health check"))
    | .up => .ok ()

/-- _on_update_status: run _on_event; if the resulting unit status is
Waiting or Blocked, return without the health check; otherwise run
_check_status, copying an ErrorWithStatus into the unit status, letting
other exceptions escape, and setting Active on success. -/
def onUpdateStatus (env : ReconcileEnv) (check : CheckOutcome) : EventOutcome :=
  match onEvent env with
  | .uncaught e => .uncaught e
  | .status (.waiting m) => .status (.waiting m)
  | .status (.blocked m) => .status (.blocked m)
  | .status _ =>
    match checkStatus env.isLeader check with
    | .error (.withStatus st) => .status st
    | .error e => .uncaught e
    | .ok _ => .status .active

/-- What a database-relation trigger handler does before (or instead of)
the pipeline: set a terminal status and stop, or set a banner status and
delegate to _on_event, or raise an exception no handler catches. -/
inductive HandlerResult where
  | setStatus : Status → HandlerResult
  | pipeline : Status → HandlerResult
  | uncaught : CharmError → HandlerResult
deriving DecidableEq

/-- _on_mysql_relation (mysql relation-joined and relation-changed): more
than one mysql relation raises an uncaught ErrorWithStatus; an
established relational-db relation sets Blocked with the fixed conflict
message and returns; otherwise a Maintenance banner is set and the
pipeline runs. -/
def onMysqlRelation (s : DBState) : HandlerResult :=
  if 1 < s.mysqlRels.length then
    .uncaught (.withStatus (.blocked ("Too many mysql relations. " ++ MYSQL_WARNING)))
  else
    match s.relationalDb with
    | some _ => .setStatus (.blocked (UNBLOCK_MESSAGE ++ " See logs"))
    | none => .pipeline (.maintenance ("Adding mysql relation. " ++ MYSQL_WARNING))

/-- _on_mysql_relation_remove (mysql relation-departed and
relation-broken): unconditionally set a Maintenance banner and delegate
to _on_event. -/
def onMysqlRelationRemove (_s : DBState) : HandlerResult :=
  .pipeline (.maintenance ("Removing mysql relation. " ++ MYSQL_WARNING))

/-- _on_relational_db_relation (relational-db relation-joined,
relation-changed, database-created, endpoints-changed): an established
mysql relation sets Blocked with the fixed conflict message and returns
(model.get_relation("mysql") raising TooManyRelatedAppsError escapes
uncaught, only KeyError is shielded); otherwise a Maintenance banner is
set and the pipeline runs. -/
def onRelationalDbRelation (s : DBState) : HandlerResult :=
  match s.mysqlRels with
  | [] => .pipeline (.maintenance "Adding relational-db relation")
  | [_] => .setStatus (.blocked (UNBLOCK_MESSAGE ++ " See logs"))
  | _ => .uncaught .tooManyRelatedApps

/-- _on_relational_db_relation_remove (relational-db relation-departed
and relation-broken): unconditionally set a Maintenance banner and
delegate to _on_event. -/
def onRelationalDbRelationRemove (_s : DBState) : HandlerResult :=
  .pipeline (.maintenance "Removing relational-db relation")

/-! Helper lemmas shared by several results. -/

/-- States in which _get_mysql_data raises GenericCharmRuntimeError and
_get_db_data therefore probes the relational-db path: the mysql relation
is structurally absent, or it is established with no remote units, or its
first remote unit's data bag is empty. -/
def mysqlFallsThrough (s : DBState) : Prop :=
  s.mysqlRels = [] ∨ ∃ r, s.mysqlRels = [r] ∧ (r = [] ∨ r.head? = some [])

lemma getDbData_mysql_ok (s : DBState) (d : DbData) (h : getMysqlData s = .ok d) :
    getDbData s = .ok d := by
  unfold getDbData
  rw [h]

lemma getDbData_mysql_withStatus (s : DBState) (st : Status)
    (h : getMysqlData s = .error (.withStatus st)) :
    getDbData s = .error (.withStatus st) := by
  unfold getDbData
  rw [h]

lemma getMysqlData_complete (u : UnitData) (rest : List UnitData) (rdb : Option (List UnitData))
    (db pw hs p : String)
    (h1 : u.lookup "database" = some db) (h2 : u.lookup "root_password" = some pw)
    (h3 : u.lookup "host" = some hs) (h4 : u.lookup "port" = some p) :
    getMysqlData ⟨[u :: rest], rdb⟩ = .ok ⟨db, pw, "root", hs, p⟩ := by
  simp [getMysqlData, getDbRelationMysql, h1, h2, h3, h4]

lemma getMysqlData_missing_key (u : UnitData) (rest : List UnitData)
    (rdb : Option (List UnitData)) (hne : u ≠ [])
    (hmiss : u.lookup "database" = none ∨ u.lookup "root_password" = none ∨
      u.lookup "host" = none ∨ u.lookup "port" = none) :
    getMysqlData ⟨[u :: rest], rdb⟩ =
      .error (.withStatus (.waiting "Incorrect/incomplete data found in relation mysql. See logs")) := by
  have hEmpty : u.isEmpty = false := by
    cases u with
    | nil => exact absurd rfl hne
    | cons a as => rfl
  cases hdb : u.lookup "database" <;> cases hrp : u.lookup "root_password" <;>
    cases hh : u.lookup "host" <;> cases hp : u.lookup "port" <;>
    simp [getMysqlData, getDbRelationMysql, hdb, hrp, hh, hp, hEmpty]
  rcases hmiss with h | h | h | h
  · rw [hdb] at h
    exact Option.noConfusion h
  · rw [hrp] at h
    exact Option.noConfusion h
  · rw [hh] at h
    exact Option.noConfusion h
  · rw [hp] at h
    exact Option.noConfusion h

lemma getMysqlData_fallsThrough (s : DBState) :
    mysqlFallsThrough s ↔ ∃ m, getMysqlData s = .error (.genericRuntime m) := by
  rcases s with ⟨mrels, rdb⟩
  constructor
  · intro h
    rcases h with h | ⟨r, hr, h⟩
    · obtain rfl : mrels = [] := h
      exact ⟨"Database relation mysql is not established or empty", rfl⟩
    · obtain rfl : mrels = [r] := hr
      rcases h with h | h
      · subst h
        exact ⟨"Database relation mysql is not established or empty", rfl⟩
      · rcases r with _ | ⟨u, urest⟩
        · simp at h
        · obtain rfl : u = [] := by
            simpa using h
          exact ⟨"Database relation mysql is not established or empty", rfl⟩
  · rintro ⟨m, h⟩
    rcases mrels with _ | ⟨r, rrest⟩
    · exact Or.inl rfl
    · rcases rrest with _ | ⟨r2, rrest2⟩
      · rcases r with _ | ⟨u, urest⟩
        · exact Or.inr ⟨[], rfl, Or.inl rfl⟩
        · rcases u with _ | ⟨kv, bag⟩
          · exact Or.inr ⟨[] :: urest, rfl, Or.inr rfl⟩
          · exfalso
            cases hdb : (kv :: bag : UnitData).lookup "database" <;>
              cases hrp : (kv :: bag : UnitData).lookup "root_password" <;>
              cases hh : (kv :: bag : UnitData).lookup "host" <;>
              cases hp : (kv :: bag : UnitData).lookup "port" <;>
              simp [getMysqlData, getDbRelationMysql, hdb, hrp, hh, hp] at h
      · simp [getMysqlData, getDbRelationMysql] at h

/-- A state in which both database relations are established: one mysql
relation whose single remote unit has populated data, and a relational-db
relation with one populated library record. -/
def bothPresentState : DBState :=
  ⟨[[[("database", "d")]]], some [[("password", "p")]]⟩

/-- C1: whenever both the legacy (mysql) and modern (relational-db)
database relations are present — the mysql relation with arbitrary unit
data, the relational-db relation with arbitrary library data — both the
mysql and the relational-db relation-joined/changed handlers, where the
mutual-exclusion resolution of the database policy lives, set Blocked
with the fixed conflict message, independent of any relation data
contents. -/
theorem bothPresent_resolution_blocked (mysqlUnits : List UnitData) (libData : List UnitData) :
    onMysqlRelation ⟨[mysqlUnits], some libData⟩ =
      .setStatus (.blocked (UNBLOCK_MESSAGE ++ " See logs")) ∧
    onRelationalDbRelation ⟨[mysqlUnits], some libData⟩ =
      .setStatus (.blocked (UNBLOCK_MESSAGE ++ " See logs")) := by
  constructor <;> rfl

/-- C10: with more than one established mysql relation, the mysql
relation-joined/changed handler raises ErrorWithStatus (a status-carrying
error) that no enclosing handler catches: the handler result is an
uncaught failure, not a status update, so the unit status is not set to
Blocked. -/
theorem tooManyMysql_uncaught (s : DBState) (h : 1 < s.mysqlRels.length) :
    onMysqlRelation s =
      .uncaught (.withStatus (.blocked ("Too many mysql relations. " ++ MYSQL_WARNING))) := by
  simp [onMysqlRelation, h]

/-- Concrete instantiation of tooManyMysql_uncaught at a state with two
mysql relations. -/
theorem tooManyMysql_uncaught_witness :
    1 < (DBState.mk [[], []] none).mysqlRels.length ∧
    onMysqlRelation ⟨[[], []], none⟩ =
      .uncaught (.withStatus (.blocked ("Too many mysql relations. " ++ MYSQL_WARNING))) :=
  ⟨by decide, tooManyMysql_uncaught ⟨[[], []], none⟩ (by decide)⟩

/-- C3 counterexample: with both database relations present, the mysql
and relational-db relation-departed/broken handlers do not run the
mutual-exclusion pre-check at all: they set a Maintenance banner and
always delegate to the full pipeline, instead of terminating early with
Blocked. -/
theorem removeHandlers_no_precheck_cex :
    onMysqlRelationRemove bothPresentState =
      .pipeline (.maintenance ("Removing mysql relation. " ++ MYSQL_WARNING)) ∧
    onMysqlRelationRemove bothPresentState ≠
      .setStatus (.blocked (UNBLOCK_MESSAGE ++ " See logs")) ∧
    onRelationalDbRelationRemove bothPresentState =
      .pipeline (.maintenance "Removing relational-db relation") ∧
    onRelationalDbRelationRemove bothPresentState ≠
      .setStatus (.blocked (UNBLOCK_MESSAGE ++ " See logs")) := by
  refine ⟨rfl, ?_, rfl, ?_⟩ <;> decide

/-- C3 amended: the mutual-exclusion pre-check runs on relation-joined
and relation-changed of either database relation, before and independent
of the data-fetch paths, and terminates processing early with Blocked
without invoking the pipeline; the relation-departed and relation-broken
handlers instead set a Maintenance banner and always delegate to the
full pipeline without a pre-check. -/
theorem dbRelation_precheck_amended (s : DBState) :
    (s.mysqlRels.length ≤ 1 → s.relationalDb.isSome →
      onMysqlRelation s = .setStatus (.blocked (UNBLOCK_MESSAGE ++ " See logs"))) ∧
    (s.mysqlRels.length = 1 →
      onRelationalDbRelation s = .setStatus (.blocked (UNBLOCK_MESSAGE ++ " See logs"))) ∧
    onMysqlRelationRemove s = .pipeline (.maintenance ("Removing mysql relation. " ++ MYSQL_WARNING)) ∧
    onRelationalDbRelationRemove s = .pipeline (.maintenance "Removing relational-db relation") := by
  refine ⟨?_, ?_, rfl, rfl⟩
  · intro hlen hsome
    rcases hs : s.relationalDb with _ | d
    · rw [hs] at hsome
      exact absurd hsome (by simp)
    · have : ¬ 1 < s.mysqlRels.length := by omega
      simp [onMysqlRelation, this, hs]
  · intro hlen
    rcases hm : s.mysqlRels with _ | ⟨r, rrest⟩
    · rw [hm] at hlen
      simp at hlen
    · rcases rrest with _ | ⟨r2, rrest2⟩
      · simp [onRelationalDbRelation, hm]
      · rw [hm] at hlen
        simp at hlen

/-- Concrete instantiation of dbRelation_precheck_amended at a state with
one mysql relation and an established relational-db relation. -/
theorem dbRelation_precheck_amended_witness :
    (DBState.mk [[]] (some [])).mysqlRels.length ≤ 1 ∧
    (DBState.mk [[]] (some [])).relationalDb.isSome = true ∧
    onMysqlRelation ⟨[[]], some []⟩ = .setStatus (.blocked (UNBLOCK_MESSAGE ++ " See logs")) ∧
    onRelationalDbRelation ⟨[[]], some []⟩ = .setStatus (.blocked (UNBLOCK_MESSAGE ++ " See logs")) :=
  ⟨by decide, by decide,
   (dbRelation_precheck_amended ⟨[[]], some []⟩).1 (by decide) (by decide),
   (dbRelation_precheck_amended ⟨[[]], some []⟩).2.1 (by decide)⟩

/-- C9: when the mysql relation is present, its first remote unit
carries all of database, root_password, host and port, and the
relational-db relation is absent, database resolution succeeds with the
complete parameter record whose username is the fixed constant "root". -/
theorem mysql_complete_data_resolution (s : DBState) (u : UnitData) (rest : List UnitData)
    (db pw hs p : String)
    (hm : s.mysqlRels = [u :: rest]) (hr : s.relationalDb = none)
    (h1 : u.lookup "database" = some db) (h2 : u.lookup "root_password" = some pw)
    (h3 : u.lookup "host" = some hs) (h4 : u.lookup "port" = some p) :
    getDbData s = .ok ⟨db, pw, "root", hs, p⟩ := by
  rcases s with ⟨mrels, rdb⟩
  obtain rfl : mrels = [u :: rest] := hm
  exact getDbData_mysql_ok _ _ (getMysqlData_complete u rest rdb db pw hs p h1 h2 h3 h4)

/-- Concrete instantiation of mysql_complete_data_resolution. -/
theorem mysql_complete_data_resolution_witness :
    getDbData ⟨[[[("database", "mldb"), ("root_password", "secret"),
        ("host", "mysql-0"), ("port", "3306")]]], none⟩ =
      .ok ⟨"mldb", "secret", "root", "mysql-0", "3306"⟩ :=
  mysql_complete_data_resolution _ _ [] "mldb" "secret" "mysql-0" "3306"
    rfl rfl (by decide) (by decide) (by decide) (by decide)

/-- C4 counterexample: mysql relation present with one remote unit whose
data bag is empty (so every required key, database, root_password, host
and port, is missing), relational-db relation absent: resolution falls
through to the relational-db path and fails Blocked with the
add-a-database-relation message, not Waiting. -/
theorem mysql_empty_data_blocked_cex :
    getDbData ⟨[[[]]], none⟩ =
      .error (.withStatus (.blocked "Please add required database relation: eg. relational-db")) ∧
    getDbData ⟨[[[]]], none⟩ ≠
      .error (.withStatus (.waiting "Incorrect/incomplete data found in relation mysql. See logs")) := by
  decide

/-- C4 amended: with the mysql relation present, the relational-db
relation absent, and the first remote unit's data bag non-empty but
missing at least one of the required keys database, root_password, host,
port, resolution yields Waiting; when the bag is entirely empty the
mysql path instead falls through to the relational-db probe. -/
theorem mysql_missing_key_waiting (s : DBState) (u : UnitData) (rest : List UnitData)
    (hm : s.mysqlRels = [u :: rest]) (hr : s.relationalDb = none) (hne : u ≠ [])
    (hmiss : u.lookup "database" = none ∨ u.lookup "root_password" = none ∨
      u.lookup "host" = none ∨ u.lookup "port" = none) :
    getDbData s =
      .error (.withStatus (.waiting "Incorrect/incomplete data found in relation mysql. See logs")) := by
  rcases s with ⟨mrels, rdb⟩
  obtain rfl : mrels = [u :: rest] := hm
  exact getDbData_mysql_withStatus _ _ (getMysqlData_missing_key u rest rdb hne hmiss)

/-- Concrete instantiation of mysql_missing_key_waiting: host and port
present, database and root_password missing. -/
theorem mysql_missing_key_waiting_witness :
    getDbData ⟨[[[("host", "mysql-0"), ("port", "3306")]]], none⟩ =
      .error (.withStatus (.waiting "Incorrect/incomplete data found in relation mysql. See logs")) :=
  mysql_missing_key_waiting _ _ [] rfl rfl (by decide) (Or.inl (by decide))

/-- C2 counterexample: a state whose mysql relation is established (so
not structurally absent) but has no remote unit yet. With populated
relational-db data the resolution returns the relational-db record, so
the modern path was probed although the legacy relation is present; with
the relational-db relation absent the resolution fails Blocked with the
add-a-database-relation message reserved for the neither-found case,
instead of a legacy-path Waiting. -/
theorem mysql_present_empty_probes_modern_cex :
    getDbData ⟨[[]], some [[("password", "p"), ("username", "u"), ("endpoints", "h:3306")]]⟩ =
      .ok ⟨"mlpipeline", "p", "u", "h", "3306"⟩ ∧
    getDbData ⟨[[]], none⟩ =
      .error (.withStatus (.blocked "Please add required database relation: eg. relational-db")) := by
  decide

/-- C2 amended: resolution always attempts the legacy (mysql) path
first — a legacy success or legacy status-carrying failure is final —
and probes the modern (relational-db) path exactly when the legacy
relation is structurally absent, has no remote units, or its first
remote unit's data bag is empty; when in such a state the modern
relation is also absent, resolution fails Blocked with the
add-a-database-relation message. -/
theorem db_resolution_order_amended (s : DBState) :
    (∀ d, getMysqlData s = .ok d → getDbData s = .ok d) ∧
    (∀ st, getMysqlData s = .error (.withStatus st) → getDbData s = .error (.withStatus st)) ∧
    (mysqlFallsThrough s ↔ ∃ m, getMysqlData s = .error (.genericRuntime m)) ∧
    (mysqlFallsThrough s → s.relationalDb = none →
      getDbData s =
        .error (.withStatus (.blocked "Please add required database relation: eg. relational-db"))) := by
  refine ⟨getDbData_mysql_ok s, getDbData_mysql_withStatus s, getMysqlData_fallsThrough s, ?_⟩
  intro hft hnone
  obtain ⟨m, hm⟩ := (getMysqlData_fallsThrough s).mp hft
  unfold getDbData
  rw [hm]
  unfold getRelationalDbData
  rw [hnone]

/-- Concrete instantiation of db_resolution_order_amended: an
established mysql relation without units plus an absent relational-db
relation resolve Blocked, and complete mysql data resolves to the mysql
record. -/
theorem db_resolution_order_amended_witness :
    mysqlFallsThrough ⟨[[]], none⟩ ∧
    getDbData ⟨[[]], none⟩ =
      .error (.withStatus (.blocked "Please add required database relation: eg. relational-db")) ∧
    getDbData ⟨[[[("database", "dbn"), ("root_password", "rp"),
        ("host", "hn"), ("port", "pn")]]], some []⟩ =
      .ok ⟨"dbn", "rp", "root", "hn", "pn"⟩ :=
  ⟨Or.inr ⟨[], rfl, Or.inl rfl⟩,
   (db_resolution_order_amended ⟨[[]], none⟩).2.2.2 (Or.inr ⟨[], rfl, Or.inl rfl⟩) rfl,
   (db_resolution_order_amended _).1 _ (by decide)⟩

/-- C5 counterexample: a relation validated through
_validate_sdi_interface whose first peer record is empty fails Blocked
("Found empty relation data"), not Waiting. -/
theorem sdi_empty_first_record_cex :
    validateSdiInterface [("object-storage", some (.data [[]]))] "object-storage" none =
      .error (.withStatus (.blocked "Found empty relation data for object-storage")) ∧
    validateSdiInterface [("object-storage", some (.data [[]]))] "object-storage" none ≠
      .error (.withStatus (.waiting "Waiting for object-storage relation data")) := by
  decide

/-- C5 amended: for a relation whose interface negotiated and returned
records, validation fails Waiting when the relation exists but no data
has been exchanged yet (zero records), and fails Blocked with the
found-empty-relation-data message when the first peer record is empty. -/
theorem sdi_validator_amended (interfaces : Interfaces) (name : String)
    (records : List UnitData) (dflt : Option UnitData)
    (h : interfaces.lookup name = some (some (.data records))) :
    (records = [] → validateSdiInterface interfaces name dflt =
      .error (.withStatus (.waiting ("Waiting for " ++ name ++ " relation data")))) ∧
    (∀ rest, records = [] :: rest → validateSdiInterface interfaces name dflt =
      .error (.withStatus (.blocked ("Found empty relation data for " ++ name)))) := by
  constructor
  · rintro rfl
    unfold validateSdiInterface
    rw [h]
  · rintro rest rfl
    unfold validateSdiInterface
    rw [h]
    rfl

/-- Concrete instantiation of sdi_validator_amended: no records yields
Waiting, an empty first record yields Blocked. -/
theorem sdi_validator_amended_witness :
    validateSdiInterface [("kfp-viz", some (.data []))] "kfp-viz" none =
      .error (.withStatus (.waiting "Waiting for kfp-viz relation data")) ∧
    validateSdiInterface [("kfp-viz", some (.data [[], [("a", "b")]]))] "kfp-viz" none =
      .error (.withStatus (.blocked "Found empty relation data for kfp-viz")) :=
  ⟨(sdi_validator_amended [("kfp-viz", some (.data []))] "kfp-viz" [] none (by decide)).1 rfl,
   (sdi_validator_amended [("kfp-viz", some (.data [[], [("a", "b")]]))] "kfp-viz"
      [[], [("a", "b")]] none (by decide)).2 [[("a", "b")]] rfl⟩

/-- Interfaces with valid, populated object-storage and kfp-viz records. -/
def goodInterfaces : Interfaces :=
  [("object-storage", some (.data [[("access-key", "k")]])),
   ("kfp-viz", some (.data [[("service-name", "v")]]))]

/-- A database topology with complete mysql data and no relational-db
relation. -/
def goodDbState : DBState :=
  ⟨[[[("database", "mlpipeline"), ("root_password", "pw"),
      ("host", "mysql-0"), ("port", "3306")]]], none⟩

/-- A reconciliation environment that is healthy except that the
workload container cannot be reached. -/
def envNoContainer : ReconcileEnv :=
  ⟨true, .ok goodInterfaces, goodDbState, false, .ok (), .ok ()⟩

/-- C6 counterexample: a reconciliation pass on a leader with valid
relation data but an unreachable container ends with Maintenance("Pod
startup is not complete"), not a Waiting status. -/
theorem container_unreachable_cex :
    onEvent envNoContainer = .status (.maintenance "Pod startup is not complete") ∧
    onEvent envNoContainer ≠ .status (.waiting "Pod startup is not complete") := by
  decide

/-- C6 amended: in every reconciliation pass that reaches the workload
upload step (leader, interfaces fetched, configuration generated), an
unreachable container makes the pipeline fail with Maintenance status
carrying the pod-startup-not-complete message. -/
theorem container_unreachable_maintenance (env : ReconcileEnv) (interfaces : Interfaces)
    (cfg : DbData × UnitData × UnitData)
    (hl : env.isLeader = true) (hi : env.interfacesResult = .ok interfaces)
    (hc : generateConfig interfaces env.dbState = .ok cfg)
    (hcc : env.containerCanConnect = false) :
    onEvent env = .status (.maintenance "Pod startup is not complete") := by
  simp [onEvent, runPipeline, checkLeader, checkContainerConnection, hl, hi, hc, hcc]

/-- Concrete instantiation of container_unreachable_maintenance at
envNoContainer. -/
theorem container_unreachable_maintenance_witness :
    envNoContainer.isLeader = true ∧
    envNoContainer.containerCanConnect = false ∧
    onEvent envNoContainer = .status (.maintenance "Pod startup is not complete") :=
  ⟨rfl, rfl,
   container_unreachable_maintenance envNoContainer goodInterfaces
     ⟨⟨"mlpipeline", "pw", "root", "mysql-0", "3306"⟩,
      [("access-key", "k")], [("service-name", "v")]⟩
     rfl rfl (by decide) rfl⟩

/-- C7 counterexample: a relational-db record whose endpoints value has
no colon makes resolution raise an uncaught ValueError (the tuple
unpacking of str.split), not a Waiting status of any kind. -/
theorem malformed_endpoints_cex :
    getDbData ⟨[], some [[("password", "p"), ("username", "u"), ("endpoints", "badendpoint")]]⟩ =
      .error .valueError ∧
    getDbData ⟨[], some [[("password", "p"), ("username", "u"), ("endpoints", "badendpoint")]]⟩ ≠
      .error (.withStatus (.waiting "Incorrect/incomplete data found in relation relational-db. See logs")) ∧
    getDbData ⟨[], some [[("password", "p"), ("username", "u"), ("endpoints", "badendpoint")]]⟩ ≠
      .error (.withStatus (.waiting "Waiting for relational-db data")) := by
  decide

/-- C7 amended: on the modern (relational-db) path, for a record that
carries password and username, the endpoints value is split on colons
and unpacked as host and port, succeeding exactly on a single colon; a
record missing the endpoints key fails Waiting (the KeyError path), but
a present, malformed endpoints value (a split with other than two
parts) raises an uncaught ValueError instead of any status. -/
theorem relationalDb_endpoints_split_amended (s : DBState) (v : UnitData) (pw user : String)
    (hdb : s.relationalDb = some [v])
    (hp : v.lookup "password" = some pw) (hu : v.lookup "username" = some user) :
    (∀ ep hs p, v.lookup "endpoints" = some ep → pySplit ep ':' = [hs, p] →
      getRelationalDbData s = .ok ⟨"mlpipeline", pw, user, hs, p⟩) ∧
    (∀ ep, v.lookup "endpoints" = some ep → (pySplit ep ':').length ≠ 2 →
      getRelationalDbData s = .error .valueError) ∧
    (v.lookup "endpoints" = none →
      getRelationalDbData s =
        .error (.withStatus (.waiting "Incorrect/incomplete data found in relation relational-db. See logs"))) := by
  have hv : v.isEmpty = false := by
    cases v with
    | nil => exact absurd hp (by simp)
    | cons kv bag => rfl
  refine ⟨?_, ?_, ?_⟩
  · intro ep hs p he hsplit
    simp [getRelationalDbData, hdb, parseDbVals, hv, hp, hu, he, hsplit]
  · intro ep he hlen
    rcases hsp : pySplit ep ':' with _ | ⟨a, _ | ⟨b, _ | ⟨c, t⟩⟩⟩
    · simp [getRelationalDbData, hdb, parseDbVals, hv, hp, hu, he, hsp]
    · simp [getRelationalDbData, hdb, parseDbVals, hv, hp, hu, he, hsp]
    · exact absurd (by rw [hsp] ; rfl) hlen
    · simp [getRelationalDbData, hdb, parseDbVals, hv, hp, hu, he, hsp]
  · intro he
    simp [getRelationalDbData, hdb, parseDbVals, hv, hp, hu, he]

/-- Concrete instantiation of relationalDb_endpoints_split_amended: a
well-formed host:port endpoints value resolves, a colon-free one raises
ValueError, and a record without the endpoints key fails Waiting. -/
theorem relationalDb_endpoints_split_amended_witness :
    getRelationalDbData ⟨[], some [[("password", "pp"), ("username", "uu"),
        ("endpoints", "db-host:5432")]]⟩ =
      .ok ⟨"mlpipeline", "pp", "uu", "db-host", "5432"⟩ ∧
    getRelationalDbData ⟨[], some [[("password", "pp"), ("username", "uu"),
        ("endpoints", "nocolon")]]⟩ =
      .error .valueError ∧
    getRelationalDbData ⟨[], some [[("password", "pp"), ("username", "uu")]]⟩ =
      .error (.withStatus (.waiting "Incorrect/incomplete data found in relation relational-db. See logs")) :=
  ⟨(relationalDb_endpoints_split_amended _
      [("password", "pp"), ("username", "uu"), ("endpoints", "db-host:5432")] "pp" "uu"
      rfl (by decide) (by decide)).1 "db-host:5432" "db-host" "5432" (by decide) (by decide),
   (relationalDb_endpoints_split_amended _
      [("password", "pp"), ("username", "uu"), ("endpoints", "nocolon")] "pp" "uu"
      rfl (by decide) (by decide)).2.1 "nocolon" (by decide) (by decide),
   (relationalDb_endpoints_split_amended _
      [("password", "pp"), ("username", "uu")] "pp" "uu"
      rfl (by decide) (by decide)).2.2 (by decide)⟩

lemma onEvent_notLeader (env : ReconcileEnv) (h : env.isLeader = false) :
    onEvent env = .status (.waiting "Waiting for leadership") := by
  simp [onEvent, runPipeline, checkLeader, h]

/-- C8: on the periodic update-status trigger the full pipeline runs
first; when its result is Waiting or Blocked the direct health check is
skipped (the outcome does not depend on the check at all) and that
status remains; when the pipeline converged to Active the health check
runs, a DOWN check replaces Active with the Maintenance failure status
("Workload failed health check"), and an UP check leaves Active. -/
theorem updateStatus_pipeline_then_check (env : ReconcileEnv) (check : CheckOutcome) :
    (∀ m, onEvent env = .status (.waiting m) → onUpdateStatus env check = .status (.waiting m)) ∧
    (∀ m, onEvent env = .status (.blocked m) → onUpdateStatus env check = .status (.blocked m)) ∧
    (onEvent env = .status .active →
      onUpdateStatus env .down = .status (.maintenance "Workload failed health check") ∧
      onUpdateStatus env .down ≠ .status .active) ∧
    (onEvent env = .status .active → onUpdateStatus env .up = .status .active) := by
  have hleader : onEvent env = .status .active → env.isLeader = true := by
    intro h
    rcases hl : env.isLeader with _ | _
    · rw [onEvent_notLeader env hl] at h
      exact absurd h (by simp)
    · rfl
  refine ⟨?_, ?_, ?_, ?_⟩
  · intro m h
    unfold onUpdateStatus
    rw [h]
  · intro m h
    unfold onUpdateStatus
    rw [h]
  · intro h
    constructor
    · unfold onUpdateStatus
      rw [h]
      simp [checkStatus, checkLeader, hleader h]
    · unfold onUpdateStatus
      rw [h]
      simp [checkStatus, checkLeader, hleader h]
  · intro h
    unfold onUpdateStatus
    rw [h]
    simp [checkStatus, checkLeader, hleader h]

/-- A fully healthy reconciliation environment: the pipeline converges
to Active. -/
def envActive : ReconcileEnv :=
  ⟨true, .ok goodInterfaces, goodDbState, true, .ok (), .ok ()⟩

/-- A leader environment with no database relation at all: the pipeline
fails Blocked. -/
def envBlocked : ReconcileEnv :=
  ⟨true, .ok goodInterfaces, ⟨[], none⟩, true, .ok (), .ok ()⟩

/-- Concrete instantiation of updateStatus_pipeline_then_check: a
Blocked pipeline result survives the update-status trigger untouched
even with a failing check, and an Active pipeline result is downgraded
to Maintenance by a failing check and kept Active by a passing one. -/
theorem updateStatus_pipeline_then_check_witness :
    onUpdateStatus envBlocked .down =
      .status (.blocked "Please add required database relation: eg. relational-db") ∧
    onUpdateStatus envActive .down = .status (.maintenance "Workload failed health check") ∧
    onUpdateStatus envActive .up = .status .active :=
  ⟨(updateStatus_pipeline_then_check envBlocked .down).2.1 _ (by decide),
   ((updateStatus_pipeline_then_check envActive .down).2.2.1 (by decide)).1,
   (updateStatus_pipeline_then_check envActive .up).2.2.2 (by decide)⟩
